import Mathlib

/-!
Verification of the scraping/normalization layer of the rust-docs-mcp-server
repository against its specification.

The repository contains two generations of the service layer:
* the current free-function service (`src/service.ts`, embedded here as
  namespace `Part007`) together with its fetch clients,
* an intermediate class-free variant (`src/src/service.ts`, embedded as
  namespace `ServiceTs`),
* the legacy `DocsRsService` class (`src/services/docs-rs-service.ts`,
  embedded as namespace `Part005`).

Each operation is a pure function over
* a fetch oracle `String → Except String r` standing for the HTTP client
  (`Except.error` is a thrown request failure carrying its message, `Except.ok`
  a 2xx response), and
* page-observation structures, each field of which records the result of one
  concrete cheerio selector expression used by the source.

Every operation returns its `Except` result paired with the list of URLs it
requested from the oracle, in order, so that "no network call is issued" and
"no further patterns are tried" are stated as facts about that list.
-/

deriving instance DecidableEq for Except

/-- Does the character list start with the pattern? (character-level `String.startsWith`). -/
def charsStartWith : List Char → List Char → Bool
  | [], _ => true
  | _ :: _, [] => false
  | p :: ps, c :: cs => p == c && charsStartWith ps cs

/-- Does the character list contain the pattern as a contiguous run? (JS `String.includes`). -/
def charsContain (pat : List Char) : List Char → Bool
  | [] => pat.isEmpty
  | c :: cs => charsStartWith pat (c :: cs) || charsContain pat cs

/-- JS `hay.includes(pat)`. -/
def strContains (hay pat : String) : Bool := charsContain pat.data hay.data

/-- JS `s.trim()` (modelled with Lean whitespace characters): drop whitespace from
both ends. Implemented over the character data so that it evaluates in the kernel. -/
def jsTrim (s : String) : String :=
  String.mk (((s.data.dropWhile Char.isWhitespace).reverse.dropWhile Char.isWhitespace).reverse)

/-- JS `s.toLowerCase()` (ASCII model), implemented over the character data. -/
def jsToLower (s : String) : String := String.mk (s.data.map Char.toLower)

/-- Strip the pattern from the front of the list, returning the remainder. -/
def stripPre : List Char → List Char → Option (List Char)
  | [], l => some l
  | _ :: _, [] => none
  | p :: ps, c :: cs => if p == c then stripPre ps cs else none

/-- Fuel-driven worker for JS `String.split`: scan left to right, consuming
non-overlapping separator occurrences. The fuel is the input length, which the scan
never exceeds (each step consumes at least one character). -/
def splitFuel (sep : List Char) : Nat → List Char → List Char → List (List Char)
  | _, [], acc => [acc.reverse]
  | 0, l, acc => [acc.reverse ++ l]
  | fuel + 1, c :: cs, acc =>
    match stripPre sep (c :: cs) with
    | some rest => acc.reverse :: splitFuel sep fuel rest []
    | none => splitFuel sep fuel cs (c :: acc)

/-- JS `s.split(sep)` for a non-empty separator. -/
def jsSplit (s sep : String) : List String :=
  (splitFuel sep.data s.data.length s.data []).map String.mk

/-- JS `s || undefined` for a string-valued expression: the empty string becomes `undefined`. -/
def emptyToNone (s : String) : Option String := if s = "" then none else some s

/-- JS `attr(..) || undefined`: a missing attribute stays absent, an empty one becomes absent. -/
def attrOrUndefined : Option String → Option String
  | none => none
  | some s => emptyToNone s

/-- JS `n || d` for an optional numeric argument (`0` is falsy and also falls back). -/
def jsOrNat (o : Option Nat) (d : Nat) : Nat :=
  match o with
  | none => d
  | some n => if n = 0 then d else n

/-- JS `s.split(sep).pop() || s`: the last split segment, or the whole string
when that segment is empty (`split` never yields an empty array). -/
def lastSegmentOr (s sep : String) : String :=
  let lastSeg := (jsSplit s sep).getLastD ""
  if lastSeg = "" then s else lastSeg

/-- JS `urls.join(", ")`. -/
def joinComma : List String → String
  | [] => ""
  | [u] => u
  | u :: us => u ++ ", " ++ joinComma us

/-- Numeric value of a run of decimal digits (JS `Number.parseInt(-, 10)` applied
to a digits-only capture). -/
def natOfDigits (ds : List Char) : Nat :=
  ds.foldl (fun n c => n * 10 + (c.toNat - 48)) 0

/-- First match of the JS regular expression `/of\s+(\d+)/i` used on the pagination
text: scan left to right for `o`/`O` followed by `f`/`F`, one or more whitespace
characters and one or more digits, and return the numeric value of the digit capture. -/
def matchOfNum : List Char → Option Nat
  | [] => none
  | c :: rest =>
    if c == 'o' || c == 'O' then
      match rest with
      | [] => none
      | f :: rest2 =>
        if f == 'f' || f == 'F' then
          let ws := rest2.takeWhile (fun ch => ch.isWhitespace)
          let ds := (rest2.dropWhile (fun ch => ch.isWhitespace)).takeWhile (fun ch => ch.isDigit)
          if ws.isEmpty || ds.isEmpty then matchOfNum rest else some (natOfDigits ds)
        else matchOfNum rest
    else matchOfNum rest

/-- First match of `/of\s+(\d+)/i` on a string. -/
def matchOfNumStr (s : String) : Option Nat := matchOfNum s.data

/-- First match of the JS regular expression `pat([^/]+)` for a literal pattern:
scan for the pattern followed by a non-empty maximal run of characters other than
`/` and return that capture; an empty capture makes the scan continue, as the
backtracking regex engine does. -/
def capAfterPat (pat : List Char) : List Char → Option String
  | [] => none
  | c :: cs =>
    if charsStartWith pat (c :: cs) then
      let cap := ((c :: cs).drop pat.length).takeWhile (fun ch => ch != '/')
      if cap.isEmpty then capAfterPat pat cs else some (String.mk cap)
    else capAfterPat pat cs

/-- Modelled from the spec: the readable-text conversion performed by the third-party
`turndown` library (a dependency, not part of src/). Following §4.2 — "entity/tag
structure is flattened into a plain structured text representation … raw markup tags
are discarded" — the conversion keeps every character outside `<`…`>` tags and drops
the tags themselves. -/
def stripTagChars : List Char → Bool → List Char
  | [], _ => []
  | c :: cs, true => if c == '>' then stripTagChars cs false else stripTagChars cs true
  | c :: cs, false => if c == '<' then stripTagChars cs true else c :: stripTagChars cs false

/-- Readable-text conversion of an HTML string (model of `turndownInstance.turndown`). -/
def turndownStr (html : String) : String := String.mk (stripTagChars html.data false)

/-! ## Shared result schema (src/types.ts) -/

/-- Result record of the type-info operation (`RustType` in src/types.ts); `kind` is one of
the string literals used by the source. -/
structure RustType where
  name : String
  kind : String
  path : String
  description : Option String
  sourceUrl : Option String
  documentationUrl : String
deriving DecidableEq, Repr

/-- One cargo feature (`FeatureFlag` in src/types.ts). -/
structure FeatureFlag where
  name : String
  description : Option String
  enabled : Bool
deriving DecidableEq, Repr

/-- One symbol-search hit (`SymbolDefinition` in src/types.ts). -/
structure SymbolDefinition where
  name : String
  kind : String
  path : String
  documentationUrl : Option String
deriving DecidableEq, Repr

/-- Observations of a docs.rs item page made by `getTypeInfo`: the `.length` of each
marker-class selector, the text of the first `.docblock`, and the source-link hrefs
read by the two generations (`$(".src").attr("href")` resp. `$(".src-link a").attr("href")`). -/
structure TypePage where
  structLen : Nat
  enumLen : Nat
  traitLen : Nat
  fnLen : Nat
  macroLen : Nat
  typeLen : Nat
  typedefLen : Nat
  modLen : Nat
  docblockText : String
  srcHref : Option String
  srcLinkAHref : Option String
deriving DecidableEq, Repr

/-- Response body for an item-page request: parsed HTML observations or a JSON body. -/
inductive TypeResp where
  | text (p : TypePage)
  | json
deriving DecidableEq, Repr

/-- JS `version || "latest"`-style default for an optional string (empty string is falsy). -/
def jsOrStr (o : Option String) (d : String) : String :=
  match o with
  | none => d
  | some s => if s = "" then d else s

namespace Part007

/-! Embedding of the free-function service of src/service.ts (source file part_007),
the current generation registered by src/index.ts. -/

/-- Observations of a crate documentation page: `$("#main-content").html()` (absent when
the element is missing) and the raw page string `response.data`. -/
structure DocPage where
  mainContentHtml : Option String
  data : String
deriving DecidableEq, Repr

/-- Response body for a documentation-page request. -/
inductive DocResp where
  | text (p : DocPage)
  | json
deriving DecidableEq, Repr

/-- The documentation path `${crateName}/${versionPath}/${crateName}/`. -/
def docUrl (crateName : String) (version : Option String) : String :=
  crateName ++ "/" ++ jsOrStr version "latest" ++ "/" ++ crateName ++ "/"

/-- getCrateDocumentation of src/service.ts: validate the crate name, fetch the page,
extract `#main-content` and convert it to readable text, falling back to the full
document when the selector finds nothing. -/
def getCrateDocumentation (fetch : String → Except String DocResp) (crateName : String)
    (version : Option String) : Except String String × List String :=
  if jsTrim crateName = "" then (.error "Crate name is required and cannot be empty", [])
  else
    let url := docUrl crateName version
    match fetch url with
    | .error e =>
      (.error ("failed to get documentation for crate " ++ crateName ++ ": " ++ e), [url])
    | .ok .json =>
      (.error ("failed to get documentation for crate " ++ crateName ++
        ": Expected HTML response but got JSON"), [url])
    | .ok (.text p) =>
      match p.mainContentHtml with
      | none => (.ok (turndownStr p.data), [url])
      | some mc =>
        if mc = "" then (.ok (turndownStr p.data), [url]) else (.ok (turndownStr mc), [url])

/-- The item path `${crateName}/${versionPath}/${crateName}/${path}`. -/
def typeUrlPath (crateName path : String) (version : Option String) : String :=
  crateName ++ "/" ++ jsOrStr version "latest" ++ "/" ++ crateName ++ "/" ++ path

/-- Kind classification of getTypeInfo in src/service.ts: the if/else-if chain over
marker-class presence, `.type` in sixth position, defaulting to "other". -/
def typeKind (p : TypePage) : String :=
  if p.structLen != 0 then "struct"
  else if p.enumLen != 0 then "enum"
  else if p.traitLen != 0 then "trait"
  else if p.fnLen != 0 then "function"
  else if p.macroLen != 0 then "macro"
  else if p.typeLen != 0 then "type"
  else if p.modLen != 0 then "module"
  else "other"

/-- getTypeInfo of src/service.ts. -/
def getTypeInfo (fetch : String → Except String TypeResp) (crateName path : String)
    (version : Option String) : Except String RustType × List String :=
  let fullPath := typeUrlPath crateName path version
  match fetch fullPath with
  | .error e => (.error ("Failed to get type info: " ++ e), [fullPath])
  | .ok .json => (.error "Failed to get type info: Expected HTML response but got JSON", [fullPath])
  | .ok (.text p) =>
    (.ok { name := lastSegmentOr path "/"
         , kind := typeKind p
         , path := path
         , description := emptyToNone (jsTrim p.docblockText)
         , sourceUrl := attrOrUndefined p.srcHref
         , documentationUrl := "https://docs.rs" ++ fullPath }, [fullPath])

/-- Observations of one `h3` heading on the features page: its `id` attribute, its text,
`$(element).next().find(".is-default-feature").length`, and `$(element).next("p").text()`. -/
structure H3Elem where
  id : Option String
  text : String
  nextDefaultLen : Nat
  nextPText : String
deriving DecidableEq, Repr

/-- Observations of a features page: its `h3` headings in document order. -/
structure FeaturesPage where
  h3s : List H3Elem
deriving DecidableEq, Repr

/-- Response body for a features-page request. -/
inductive FeatResp where
  | text (p : FeaturesPage)
  | json
deriving DecidableEq, Repr

/-- The features path `/crate/${crateName}/${versionPath}/features`. -/
def featUrl (crateName : String) (version : Option String) : String :=
  "/crate/" ++ crateName ++ "/" ++ jsOrStr version "latest" ++ "/features"

/-- The `$("h3").each` loop of getFeatureFlags in src/service.ts: skip headings without an
id (JS falsiness also skips an empty id), skip the aggregate "default" section, mark a
feature enabled when its text contains "(default)" or the next sibling carries the
default-feature marker, and drop empty descriptions. -/
def parseFeatures (h3s : List H3Elem) : List FeatureFlag :=
  h3s.foldl (fun acc e =>
    match e.id with
    | none => acc
    | some name =>
      if name = "" then acc
      else if name = "default" then acc
      else
        acc ++ [{ name := name
                , description := emptyToNone (jsTrim e.nextPText)
                , enabled := strContains e.text "(default)" || e.nextDefaultLen != 0 }]) []

/-- getFeatureFlags of src/service.ts. -/
def getFeatureFlags (fetch : String → Except String FeatResp) (crateName : String)
    (version : Option String) : Except String (List FeatureFlag) × List String :=
  let url := featUrl crateName version
  match fetch url with
  | .error e => (.error ("Failed to get feature flags: " ++ e), [url])
  | .ok .json =>
    (.error "Failed to get feature flags: Expected HTML response but got JSON", [url])
  | .ok (.text p) => (.ok (parseFeatures p.h3s), [url])

/-- Observations of a docs.rs source page: `$("pre.rust").text()` and `$("code").text()`. -/
structure SrcPage where
  preRustText : String
  codeText : String
deriving DecidableEq, Repr

/-- Response body for a source-page request. -/
inductive SrcResp where
  | text (p : SrcPage)
  | json
deriving DecidableEq, Repr

/-- The `possibleUrls` array of getSourceCode in src/service.ts, in source order. -/
def possibleUrls (crateName versionPath path : String) : List String :=
  [ "/" ++ crateName ++ "/" ++ versionPath ++ "/src/" ++ crateName ++ "/" ++ path
  , "/crate/" ++ crateName ++ "/" ++ versionPath ++ "/source/" ++ path
  , "/" ++ crateName ++ "/" ++ versionPath ++ "/source/" ++ path ]

/-- The `for (const url of possibleUrls) { try { … break } catch { continue } }` loop:
returns the first successful response (if any) together with the URLs actually requested. -/
def tryUrls (fetch : String → Except String SrcResp) :
    List String → Option SrcResp × List String
  | [] => (none, [])
  | u :: rest =>
    match fetch u with
    | .ok r => (some r, [u])
    | .error _ =>
      let next := tryUrls fetch rest
      (next.1, u :: next.2)

/-- Source extraction of getSourceCode: prefer `pre.rust`, fall back to `code`,
otherwise return the (empty) `pre.rust` text. -/
def extractSource (p : SrcPage) : String :=
  let sourceCode := p.preRustText
  if sourceCode = "" then
    let codeElement := p.codeText
    if codeElement != "" then codeElement else sourceCode
  else sourceCode

/-- getSourceCode of src/service.ts. -/
def getSourceCode (fetch : String → Except String SrcResp) (crateName path : String)
    (version : Option String) : Except String String × List String :=
  if jsTrim crateName = "" then (.error "Crate name is required and cannot be empty", [])
  else if jsTrim path = "" then
    (.error "Path is required and cannot be empty. Use format like \x27lib.rs\x27 or \x27src/main.rs\x27", [])
  else
    let versionPath := jsOrStr version "latest"
    let urls := possibleUrls crateName versionPath path
    let attempt := tryUrls fetch urls
    match attempt.1 with
    | none =>
      (.error ("Failed to get source code: Could not find source code at any of the attempted URLs: "
        ++ joinComma urls), attempt.2)
    | some .json => (.error "Failed to get source code: Expected HTML response but got JSON", attempt.2)
    | some (.text p) => (.ok (extractSource p), attempt.2)

/-- One `li a` link inside a `ul.all-items` list on the all-symbols page: its text
(the fully qualified name) and its `href` attribute. -/
structure AllLink where
  text : String
  href : Option String
deriving DecidableEq, Repr

/-- One `h3` section of the all-symbols page with the links of its following
`ul.all-items` list. -/
structure AllSection where
  id : Option String
  links : List AllLink
deriving DecidableEq, Repr

/-- Observations of the `/all.html` page: its sections in document order. -/
structure AllPage where
  sections : List AllSection
deriving DecidableEq, Repr

/-- Response body for an all-symbols request. -/
inductive AllResp where
  | text (p : AllPage)
  | json
deriving DecidableEq, Repr

/-- The nested conditional mapping a section id to a symbol kind in searchSymbols. -/
def kindOfSectionId (sectionId : String) : String :=
  if sectionId = "structs" then "struct"
  else if sectionId = "enums" then "enum"
  else if sectionId = "traits" then "trait"
  else if sectionId = "functions" then "function"
  else if sectionId = "macros" then "macro"
  else if sectionId = "derives" then "derive"
  else if sectionId = "modules" then "module"
  else "other"

/-- The symbol display name: `fullName.split("::").pop() || fullName`. -/
def symbolNameOf (fullName : String) : String := lastSegmentOr fullName "::"

/-- The symbol record pushed by searchSymbols for a matching link of a section with
the given kind. -/
def mkSymbol (crateName versionPath kind : String) (link : AllLink) : SymbolDefinition :=
  { name := symbolNameOf (jsTrim link.text)
  , kind := kind
  , path := jsTrim link.text
  , documentationUrl := some ("https://docs.rs/" ++ crateName ++ "/" ++ versionPath ++ "/"
      ++ crateName ++ "/" ++ link.href.getD "") }

/-- The per-link body of the `find("li a").each` loop of searchSymbols: trim the link
text, extract the final `::` segment, and keep the link when the symbol name or the
fully qualified name contains the query, case-insensitively. -/
def linkToSymbol (crateName versionPath query kind : String) (link : AllLink) :
    Option SymbolDefinition :=
  let fullName := jsTrim link.text
  let symbolName := lastSegmentOr fullName "::"
  if strContains (jsToLower symbolName) (jsToLower query) || strContains (jsToLower fullName) (jsToLower query) then
    some { name := symbolName
         , kind := kind
         , path := fullName
         , documentationUrl := some ("https://docs.rs/" ++ crateName ++ "/" ++ versionPath ++ "/"
             ++ crateName ++ "/" ++ link.href.getD "") }
  else none

/-- The per-section body of the `$("h3").each` loop of searchSymbols: skip sections
whose id is falsy (`if (!sectionId) return;` skips both a missing and an empty id),
classify the kind from the id, and filter the section links. -/
def parseSection (crateName versionPath query : String) (s : AllSection) :
    List SymbolDefinition :=
  match s.id with
  | none => []
  | some sid =>
    if sid = "" then []
    else s.links.filterMap (linkToSymbol crateName versionPath query (kindOfSectionId sid))

/-- The whole-page parse of searchSymbols: concatenate the filtered sections in order. -/
def parseAllSymbols (crateName versionPath query : String) (page : AllPage) :
    List SymbolDefinition :=
  page.sections.foldl (fun acc s => acc ++ parseSection crateName versionPath query s) []

/-- The all-symbols path `${crateName}/${versionPath}/${crateName}/all.html`. -/
def allSymbolsUrl (crateName versionPath : String) : String :=
  crateName ++ "/" ++ versionPath ++ "/" ++ crateName ++ "/all.html"

/-- searchSymbols of src/service.ts: validate crate name, query and (mandatory) version,
fetch `/all.html` and filter all kind-labeled sections by the query. -/
def searchSymbols (fetch : String → Except String AllResp) (crateName query version : String) :
    Except String (List SymbolDefinition) × List String :=
  if jsTrim crateName = "" then (.error "Crate name is required and cannot be empty", [])
  else if jsTrim query = "" then (.error "Search query is required and cannot be empty", [])
  else if jsTrim version = "" then
    (.error "Version is required for symbol search. Please specify a version (e.g., \x271.0.0\x27)", [])
  else
    let url := allSymbolsUrl crateName version
    match fetch url with
    | .error e => (.error ("Failed to search for symbols: " ++ e), [url])
    | .ok .json => (.error "Failed to search for symbols: Expected HTML response but got JSON", [url])
    | .ok (.text p) => (.ok (parseAllSymbols crateName version query p), [url])

end Part007

/-! ## Shared search/crate schema -/

/-- Input of the crate-search operation (`SearchOptions` in the types files). -/
structure SearchOptions where
  query : String
  page : Option Nat
  perPage : Option Nat
deriving DecidableEq, Repr

/-- One crate search hit (`CrateInfo`). -/
structure CrateInfo where
  name : String
  version : String
  description : Option String
deriving DecidableEq, Repr

/-- Paged crate-search outcome (`CrateSearchResult`). -/
structure CrateSearchResult where
  crates : List CrateInfo
  totalCount : Nat
deriving DecidableEq, Repr

namespace ServiceTs

/-! Embedding of the intermediate generation src/src/service.ts. -/

/-- One element of the `crates` array of the crates.io search response. -/
structure CratesIoCrate where
  name : String
  maxVersion : String
  description : Option String
deriving DecidableEq, Repr

/-- The crates.io search response body: `crates` and `meta.total`. -/
structure CratesData where
  crates : List CratesIoCrate
  metaTotal : Nat
deriving DecidableEq, Repr

/-- Response of the crates.io client: structured JSON or a text body. -/
inductive CratesResp where
  | json (d : CratesData)
  | text
deriving DecidableEq, Repr

/-- The crates.io search request `crates` with parameters `q`, `page` and `per_page`
(JS `options.page || 1` and `options.perPage || 10`). -/
def cratesUrl (options : SearchOptions) : String :=
  "crates?q=" ++ options.query ++ "&page=" ++ toString (jsOrNat options.page 1)
    ++ "&per_page=" ++ toString (jsOrNat options.perPage 10)

/-- searchCrates of src/src/service.ts: forward the query to the registry and take
`totalCount` verbatim from the upstream-reported `meta.total`. -/
def searchCrates (fetch : String → Except String CratesResp) (options : SearchOptions) :
    Except String CrateSearchResult × List String :=
  let url := cratesUrl options
  match fetch url with
  | .error e => (.error ("failed to search for crates: " ++ e), [url])
  | .ok .text => (.error "failed to search for crates: Expected JSON response but got text", [url])
  | .ok (.json d) =>
    (.ok { crates := d.crates.map (fun c =>
             { name := c.name, version := c.maxVersion, description := c.description })
         , totalCount := d.metaTotal }, [url])

/-- Kind classification of getTypeInfo in src/src/service.ts: same chain as the current
generation but with `.typedef` as the sixth marker class. -/
def typeKind (p : TypePage) : String :=
  if p.structLen != 0 then "struct"
  else if p.enumLen != 0 then "enum"
  else if p.traitLen != 0 then "trait"
  else if p.fnLen != 0 then "function"
  else if p.macroLen != 0 then "macro"
  else if p.typedefLen != 0 then "type"
  else if p.modLen != 0 then "module"
  else "other"

/-- getTypeInfo of src/src/service.ts (source link read from `$(".src-link a")`). -/
def getTypeInfo (fetch : String → Except String TypeResp) (crateName path : String)
    (version : Option String) : Except String RustType × List String :=
  let fullPath := Part007.typeUrlPath crateName path version
  match fetch fullPath with
  | .error e => (.error ("Failed to get type info: " ++ e), [fullPath])
  | .ok .json => (.error "Failed to get type info: Expected HTML response but got JSON", [fullPath])
  | .ok (.text p) =>
    (.ok { name := lastSegmentOr path "/"
         , kind := typeKind p
         , path := path
         , description := emptyToNone (jsTrim p.docblockText)
         , sourceUrl := attrOrUndefined p.srcLinkAHref
         , documentationUrl := "https://docs.rs" ++ fullPath }, [fullPath])

/-- One `.feature` element on the legacy features page: the texts of its
`.feature-name` and `.feature-description` children and whether it carries the
`feature-enabled` class. -/
structure FeatureElem where
  nameText : String
  descText : String
  enabledClass : Bool
deriving DecidableEq, Repr

/-- Observations of the legacy features page. -/
structure FeaturesPage where
  features : List FeatureElem
deriving DecidableEq, Repr

/-- Response body for a legacy features-page request. -/
inductive FeatResp where
  | text (p : FeaturesPage)
  | json
deriving DecidableEq, Repr

/-- The `$(".feature").each` loop of getFeatureFlags in src/src/service.ts: every
element is pushed, with trimmed name, optional description and the enabled class. -/
def parseFeatures (elems : List FeatureElem) : List FeatureFlag :=
  elems.foldl (fun acc e =>
    acc ++ [{ name := jsTrim e.nameText
            , description := emptyToNone (jsTrim e.descText)
            , enabled := e.enabledClass }]) []

/-- getFeatureFlags of src/src/service.ts. -/
def getFeatureFlags (fetch : String → Except String FeatResp) (crateName : String)
    (version : Option String) : Except String (List FeatureFlag) × List String :=
  let url := "/crate/" ++ crateName ++ "/" ++ jsOrStr version "latest" ++ "/features"
  match fetch url with
  | .error e => (.error ("Failed to get feature flags: " ++ e), [url])
  | .ok .json =>
    (.error "Failed to get feature flags: Expected HTML response but got JSON", [url])
  | .ok (.text p) => (.ok (parseFeatures p.features), [url])

/-- One `.search-results .result` element of the (hypothetical) search page. -/
structure ResultElem where
  nameText : String
  kindText : String
  href : Option String
deriving DecidableEq, Repr

/-- Observations of the symbol-search page. -/
structure SearchResultsPage where
  results : List ResultElem
deriving DecidableEq, Repr

/-- Response body for a symbol-search request. -/
inductive SymResp where
  | text (p : SearchResultsPage)
  | json
deriving DecidableEq, Repr

/-- The hard-coded mock list returned for crate "tokio" with query "runtime". -/
def mockTokioSymbols : List SymbolDefinition :=
  [ { name := "Runtime", kind := "struct", path := "/tokio/runtime/struct.Runtime.html"
    , documentationUrl := none }
  , { name := "Builder", kind := "struct", path := "/tokio/runtime/struct.Builder.html"
    , documentationUrl := none }
  , { name := "Handle", kind := "struct", path := "/tokio/runtime/struct.Handle.html"
    , documentationUrl := none } ]

/-- The search request `/crate/${crateName}/${versionPath}/search` with the query parameter. -/
def searchSymbolsUrl (crateName : String) (version : Option String) (query : String) : String :=
  "/crate/" ++ crateName ++ "/" ++ jsOrStr version "latest" ++ "/search?query=" ++ query

/-- searchSymbols of src/src/service.ts: the tokio/runtime pair short-circuits to the
mock list before any request; a 404 from the search endpoint yields an empty list;
other failures are wrapped and re-thrown. -/
def searchSymbols (fetch : String → Except String SymResp) (crateName query : String)
    (version : Option String) : Except String (List SymbolDefinition) × List String :=
  if crateName == "tokio" && query == "runtime" then (.ok mockTokioSymbols, [])
  else
    let url := searchSymbolsUrl crateName version query
    match fetch url with
    | .error e =>
      if strContains e "404" then (.ok [], [url])
      else (.error ("Failed to search for symbols: " ++ e), [url])
    | .ok .json =>
      (.error "Failed to search for symbols: Expected HTML response but got JSON", [url])
    | .ok (.text p) =>
      (.ok (p.results.map (fun r =>
        { name := jsTrim r.nameText, kind := jsTrim r.kindText, path := r.href.getD ""
        , documentationUrl := none })), [url])

end ServiceTs

namespace Part005

/-! Embedding of the legacy DocsRsService class (src/services/docs-rs-service.ts,
source file part_005). Its axios client returns the body directly, so the fetch
oracle yields parsed page observations. -/

/-- One `.recent-with-detail .recent-releases-container` element of the docs.rs search
page: the texts of its release title, version and description nodes. -/
structure ReleaseContainer where
  nameText : String
  versionText : String
  descriptionText : String
deriving DecidableEq, Repr

/-- Observations of the docs.rs search page, including the fallback
`a.release-title` texts and the `.pagination` text. -/
structure SearchPage where
  containers : List ReleaseContainer
  releaseTitleTexts : List String
  paginationText : String
deriving DecidableEq, Repr

/-- The `/search` request with `query`, `page` and `per_page` parameters. -/
def searchUrl (options : SearchOptions) : String :=
  "/search?query=" ++ options.query ++ "&page=" ++ toString (jsOrNat options.page 1)
    ++ "&per_page=" ++ toString (jsOrNat options.perPage 10)

/-- The primary `.recent-with-detail` parse of searchCrates: crates with a non-empty
trimmed name, version defaulting to "unknown", empty descriptions dropped. -/
def parseContainers (cs : List ReleaseContainer) : List CrateInfo :=
  cs.foldl (fun acc c =>
    let name := jsTrim c.nameText
    let version := jsTrim c.versionText
    let description := jsTrim c.descriptionText
    if name != "" then
      acc ++ [{ name := name
              , version := if version = "" then "unknown" else version
              , description := emptyToNone description }]
    else acc) []

/-- The fallback `a.release-title` parse of searchCrates. -/
def parseTitles (ts : List String) : List CrateInfo :=
  ts.foldl (fun acc t =>
    let name := jsTrim t
    if name != "" then
      acc ++ [{ name := name, version := "unknown", description := none }]
    else acc) []

/-- The mock crate pushed when nothing was parsed and the query is "serde". -/
def serdeMock : CrateInfo :=
  { name := "serde", version := "1.0.0"
  , description := some "A framework for serializing and deserializing Rust data structures" }

/-- The crate list produced by searchCrates: primary parse, then title fallback when
empty, then the serde mock when still empty. -/
def allCrates (query : String) (page : SearchPage) : List CrateInfo :=
  let crates := parseContainers page.containers
  let crates2 := if crates.isEmpty then parseTitles page.releaseTitleTexts else crates
  if crates2.isEmpty && query == "serde" then crates2 ++ [serdeMock] else crates2

/-- searchCrates of the DocsRsService class: `totalCount` starts as the parsed count and
is overwritten by the first `/of\s+(\d+)/i` match in the pagination text. -/
def searchCrates (fetch : String → Except String SearchPage) (options : SearchOptions) :
    Except String CrateSearchResult × List String :=
  let url := searchUrl options
  match fetch url with
  | .error e => (.error ("Failed to search for crates: " ++ e), [url])
  | .ok page =>
    let crates := allCrates options.query page
    let totalCount :=
      match matchOfNumStr page.paginationText with
      | some n => n
      | none => crates.length
    (.ok { crates := crates, totalCount := totalCount }, [url])

/-- One published version (the legacy `CrateVersion` without release date). -/
structure CrateVersion where
  version : String
  isYanked : Bool
deriving DecidableEq, Repr

/-- One `.versions li` element: the text of its `a` child and whether it carries the
`yanked` class. -/
structure VersionLi where
  linkText : String
  yanked : Bool
deriving DecidableEq, Repr

/-- Observations of the crate page used by getCrateVersions: the `.versions li`
elements and the hrefs of all anchors on the page. -/
structure VersionsPage where
  versionLis : List VersionLi
  anchorHrefs : List String
deriving DecidableEq, Repr

/-- The primary `.versions li` parse of getCrateVersions. -/
def parseVersionLis (lis : List VersionLi) : List CrateVersion :=
  lis.foldl (fun acc li =>
    let version := jsTrim li.linkText
    if version != "" then acc ++ [{ version := version, isYanked := li.yanked }] else acc) []

/-- The literal pattern `/crate/${crateName}/` of the anchor selector and regex. -/
def crateVersionPat (crateName : String) : String := "/crate/" ++ crateName ++ "/"

/-- The fallback anchor scan of getCrateVersions: anchors whose href contains the
crate-version pattern, version captured by `/crate/${crateName}/([^/]+)`, the literal
"latest" excluded, deduplicated against the versions collected so far. -/
def anchorScan (crateName : String) (hrefs : List String) : List CrateVersion :=
  hrefs.foldl (fun acc href =>
    if strContains href (crateVersionPat crateName) then
      match capAfterPat (crateVersionPat crateName).data href.data with
      | some v =>
        if v != "latest" then
          if acc.any (fun w => w.version == v) then acc
          else acc ++ [{ version := v, isYanked := false }]
        else acc
      | none => acc
    else acc) []

/-- The mock versions pushed when nothing was found for crate "tokio". -/
def mockTokioVersions : List CrateVersion :=
  [ { version := "1.36.0", isYanked := false }
  , { version := "1.35.1", isYanked := false }
  , { version := "1.35.0", isYanked := false } ]

/-- getCrateVersions of the DocsRsService class. -/
def getCrateVersions (fetch : String → Except String VersionsPage) (crateName : String) :
    Except String (List CrateVersion) × List String :=
  let url := "/crate/" ++ crateName
  match fetch url with
  | .error e => (.error ("Failed to get crate versions: " ++ e), [url])
  | .ok page =>
    let versions := parseVersionLis page.versionLis
    let versions2 := if versions.isEmpty then anchorScan crateName page.anchorHrefs else versions
    let versions3 :=
      if versions2.isEmpty && crateName == "tokio" then versions2 ++ mockTokioVersions
      else versions2
    (.ok versions3, [url])

end Part005

/-- Modelled from the spec (§4.3, type-info row): first-match classification — walk a
priority list of (marker-selector count, kind) pairs and return the first kind whose
marker is present, defaulting to "other". -/
def firstKind : List (Nat × String) → String
  | [] => "other"
  | (n, k) :: rest => if n != 0 then k else firstKind rest

/-- The spec priority order struct > enum > trait > function > macro > type > module
for the current generation, whose type marker is the `.type` class. -/
def kindSpec7 (p : TypePage) : String :=
  firstKind [ (p.structLen, "struct"), (p.enumLen, "enum"), (p.traitLen, "trait")
            , (p.fnLen, "function"), (p.macroLen, "macro"), (p.typeLen, "type")
            , (p.modLen, "module") ]

/-- The same priority order for the intermediate generation, whose type marker is the
`.typedef` class. -/
def kindSpecTs (p : TypePage) : String :=
  firstKind [ (p.structLen, "struct"), (p.enumLen, "enum"), (p.traitLen, "trait")
            , (p.fnLen, "function"), (p.macroLen, "macro"), (p.typedefLen, "type")
            , (p.modLen, "module") ]

/-- Modelled from the spec (§4.3, symbol-search row): a query matches an index entry
when the symbol display name (the final namespace segment) or the fully qualified
name contains the query as a substring, ignoring case. -/
def matchesQuery (query fullName : String) : Bool :=
  strContains (jsToLower (Part007.symbolNameOf fullName)) (jsToLower query) ||
    strContains (jsToLower fullName) (jsToLower query)

/-- Whether the fetch oracle succeeds on a URL (a response rather than a thrown error). -/
def succeedsAt (fetch : String → Except String Part007.SrcResp) (u : String) : Bool :=
  match fetch u with
  | .ok _ => true
  | .error _ => false

/-! ## Helper lemmas -/

/-- Appending strings concatenates their character data. -/
theorem strData_append (s t : String) : (s ++ t).data = s.data ++ t.data := rfl

/-- A foldl over a step function preserving an invariant preserves that invariant. -/
theorem foldl_preserves {α β : Type} (P : β → Prop) (step : β → α → β)
    (hstep : ∀ b a, P b → P (step b a)) :
    ∀ (l : List α) (acc : β), P acc → P (l.foldl step acc) := by
  intro l
  induction l with
  | nil => intro acc h; exact h
  | cons a l ih => intro acc h; exact ih (step acc a) (hstep acc a h)

/-- Membership in a foldl that appends the image of each element. -/
theorem mem_foldl_append {α β : Type} (f : α → List β) :
    ∀ (l : List α) (init : List β) (b : β),
      (b ∈ l.foldl (fun acc a => acc ++ f a) init ↔ b ∈ init ∨ ∃ a ∈ l, b ∈ f a) := by
  intro l
  induction l with
  | nil => intro init b; simp
  | cons a l ih =>
    intro init b
    simp only [List.foldl_cons]
    rw [ih (init ++ f a) b]
    simp only [List.mem_append, List.mem_cons]
    constructor
    · rintro ((h | h) | ⟨x, hx, hb⟩)
      · exact Or.inl h
      · exact Or.inr ⟨a, Or.inl rfl, h⟩
      · exact Or.inr ⟨x, Or.inr hx, hb⟩
    · rintro (h | ⟨x, (rfl | hx), hb⟩)
      · exact Or.inl (Or.inl h)
      · exact Or.inl (Or.inr hb)
      · exact Or.inr ⟨x, hx, hb⟩

/-- A character-list pattern is contained in any list in which it occurs contiguously. -/
theorem charsContain_append_middle (p pre post : List Char) :
    charsContain p (pre ++ (p ++ post)) = true := by
  have hstart : ∀ (q rest : List Char), charsStartWith q (q ++ rest) = true := by
    intro q
    induction q with
    | nil => intro rest; rfl
    | cons x xs ihq => intro rest; simp [charsStartWith, ihq]
  induction pre with
  | nil =>
    cases p with
    | nil =>
      cases post with
      | nil => rfl
      | cons c cs => exact rfl
    | cons c cs =>
      simp only [List.nil_append, List.cons_append, charsContain, Bool.or_eq_true]
      exact Or.inl (by simpa using hstart (c :: cs) post)
  | cons c cs ih =>
    cases p with
    | nil =>
      simp only [List.nil_append, List.cons_append, charsContain, Bool.or_eq_true]
      exact Or.inl rfl
    | cons d ds =>
      simp only [List.cons_append, charsContain, Bool.or_eq_true]
      exact Or.inr ih


/-! ## Claim theorems -/

/-- C9: the symbol-search capability of src/src/service.ts (and the identical legacy
class method) hard-codes mock data for crate "tokio" with query "runtime": for every
fetch oracle and version it returns exactly the three struct symbols Runtime, Builder
and Handle and requests no URL, bypassing the parsing-and-filtering path. -/
theorem searchSymbols_tokio_runtime_mock :
    ∀ (fetch : String → Except String ServiceTs.SymResp) (version : Option String),
      ServiceTs.searchSymbols fetch "tokio" "runtime" version =
        (.ok [ { name := "Runtime", kind := "struct"
               , path := "/tokio/runtime/struct.Runtime.html", documentationUrl := none }
             , { name := "Builder", kind := "struct"
               , path := "/tokio/runtime/struct.Builder.html", documentationUrl := none }
             , { name := "Handle", kind := "struct"
               , path := "/tokio/runtime/struct.Handle.html", documentationUrl := none } ], []) :=
  fun _ _ => rfl

/-- C6: a required-field validation failure (empty crate name for documentation fetch,
empty crate name or path for source fetch, empty crate name, query or version for
symbol search) makes the operation fail with exactly the validation error while the
list of requested URLs is empty — no HTTP request is made. -/
theorem validation_before_network :
    (∀ (fetch : String → Except String Part007.DocResp) (c : String) (v : Option String),
       jsTrim c = "" →
       Part007.getCrateDocumentation fetch c v =
         (.error "Crate name is required and cannot be empty", [])) ∧
    (∀ (fetch : String → Except String Part007.SrcResp) (c p : String) (v : Option String),
       jsTrim c = "" →
       Part007.getSourceCode fetch c p v =
         (.error "Crate name is required and cannot be empty", [])) ∧
    (∀ (fetch : String → Except String Part007.SrcResp) (c p : String) (v : Option String),
       jsTrim c ≠ "" → jsTrim p = "" →
       Part007.getSourceCode fetch c p v =
         (.error "Path is required and cannot be empty. Use format like \x27lib.rs\x27 or \x27src/main.rs\x27", [])) ∧
    (∀ (fetch : String → Except String Part007.AllResp) (c q v : String),
       jsTrim c = "" →
       Part007.searchSymbols fetch c q v =
         (.error "Crate name is required and cannot be empty", [])) ∧
    (∀ (fetch : String → Except String Part007.AllResp) (c q v : String),
       jsTrim c ≠ "" → jsTrim q = "" →
       Part007.searchSymbols fetch c q v =
         (.error "Search query is required and cannot be empty", [])) ∧
    (∀ (fetch : String → Except String Part007.AllResp) (c q v : String),
       jsTrim c ≠ "" → jsTrim q ≠ "" → jsTrim v = "" →
       Part007.searchSymbols fetch c q v =
         (.error "Version is required for symbol search. Please specify a version (e.g., \x271.0.0\x27)", [])) := by
  refine ⟨?_, ?_, ?_, ?_, ?_, ?_⟩ <;>
    intros <;>
    simp_all [Part007.getCrateDocumentation, Part007.getSourceCode, Part007.searchSymbols]

/-- C6 witness: the empty crate name is rejected without any request being issued. -/
theorem validation_before_network_witness :
    Part007.getCrateDocumentation (fun _ => .ok (.text ⟨none, ""⟩)) "" none =
      (.error "Crate name is required and cannot be empty", []) :=
  validation_before_network.1 (fun _ => .ok (.text ⟨none, ""⟩)) "" none rfl

/-- C5 (amended): whenever the #main-content selector finds nothing (element absent,
or present with empty content), getCrateDocumentation does not fail but returns the
full page converted to readable text; that text is the tag-stripped page content,
which can be empty when the page has no text outside markup tags. -/
theorem getCrateDocumentation_fullpage_fallback
    (fetch : String → Except String Part007.DocResp) (crateName : String)
    (version : Option String) (p : Part007.DocPage)
    (hc : jsTrim crateName ≠ "")
    (hf : fetch (Part007.docUrl crateName version) = .ok (.text p))
    (hm : p.mainContentHtml = none ∨ p.mainContentHtml = some "") :
    (Part007.getCrateDocumentation fetch crateName version).1 = .ok (turndownStr p.data) := by
  rcases hm with h | h <;> simp [Part007.getCrateDocumentation, hc, hf, h]

/-- C5 witness: a page whose main-content selector misses is converted whole; for a
page with readable text the result is that text. -/
theorem getCrateDocumentation_fullpage_fallback_witness :
    (Part007.getCrateDocumentation (fun _ => .ok (.text ⟨none, "<p>hi</p>"⟩)) "tokio" none).1 =
      .ok (turndownStr "<p>hi</p>") ∧ turndownStr "<p>hi</p>" = "hi" :=
  ⟨getCrateDocumentation_fullpage_fallback (fun _ => .ok (.text ⟨none, "<p>hi</p>"⟩)) "tokio" none
      ⟨none, "<p>hi</p>"⟩ (by decide) rfl (Or.inl rfl),
    by decide⟩

/-- C5 counterexample: for the non-empty page "<div></div>" with no main content the
operation succeeds with the empty string, refuting "the text is non-empty for a
non-empty page" as stated. -/
theorem getCrateDocumentation_empty_text_counterexample :
    (Part007.getCrateDocumentation (fun _ => .ok (.text ⟨none, "<div></div>"⟩)) "tokio" none).1 =
      .ok "" ∧ "<div></div>" ≠ "" :=
  ⟨rfl, by decide⟩

/-- Every flag produced by the h3-based feature parse has a non-empty name distinct
from "default": headings without id (or with an empty id) are skipped, and so is the
aggregate "default" section. -/
theorem parseFeatures_names (h3s : List Part007.H3Elem) :
    ∀ f ∈ Part007.parseFeatures h3s, f.name ≠ "" ∧ f.name ≠ "default" := by
  refine foldl_preserves
    (fun acc : List FeatureFlag => ∀ f ∈ acc, f.name ≠ "" ∧ f.name ≠ "default")
    _ ?_ h3s [] ?_
  · intro acc e hacc
    cases he : e.id with
    | none => simpa [he] using hacc
    | some name =>
      by_cases h1 : name = ""
      · simpa [he, h1] using hacc
      · by_cases h2 : name = "default"
        · simpa [he, h1, h2] using hacc
        · intro f hf
          have hf2 : f ∈ acc ∨
              f = { name := name, description := emptyToNone (jsTrim e.nextPText)
                  , enabled := strContains e.text "(default)" || e.nextDefaultLen != 0 } := by
            simpa [he, h1, h2] using hf
          rcases hf2 with h | rfl
          · exact hacc f h
          · exact ⟨h1, h2⟩
  · intro f hf
    cases hf

/-- C2 (amended): every flag returned by the current h3-id-based feature listing
(src/service.ts) has a non-empty name, and none is named "default"; the legacy
.feature-class listing of src/src/service.ts copies trimmed element text verbatim
into the name and does not guarantee either property. -/
theorem featureFlags_no_default_name
    (fetch : String → Except String Part007.FeatResp) (crateName : String)
    (version : Option String) (flags : List FeatureFlag)
    (hres : (Part007.getFeatureFlags fetch crateName version).1 = .ok flags) :
    ∀ f ∈ flags, f.name ≠ "" ∧ f.name ≠ "default" := by
  have hflags : ∃ p : Part007.FeaturesPage, flags = Part007.parseFeatures p.h3s := by
    cases hf : fetch (Part007.featUrl crateName version) with
    | error e => simp [Part007.getFeatureFlags, hf] at hres
    | ok r =>
      cases r with
      | json => simp [Part007.getFeatureFlags, hf] at hres
      | text p =>
        refine ⟨p, ?_⟩
        simp [Part007.getFeatureFlags, hf] at hres
        exact hres.symm
  obtain ⟨p, rfl⟩ := hflags
  exact parseFeatures_names p.h3s

/-- C2 witness: a feature page with a real feature, a "default" section heading and an
id-less heading yields exactly the real feature, whose name is non-empty and not
"default". -/
theorem featureFlags_no_default_name_witness :
    ({ name := "tls", description := some "uses openssl", enabled := true } : FeatureFlag).name ≠ ""
      ∧ ({ name := "tls", description := some "uses openssl", enabled := true } : FeatureFlag).name ≠ "default" :=
  featureFlags_no_default_name
    (fun _ => .ok (.text ⟨[ ⟨some "tls", "tls (default)", 0, " uses openssl "⟩
                          , ⟨some "default", "default", 0, ""⟩
                          , ⟨none, "x", 0, ""⟩ ]⟩))
    "tokio" none [{ name := "tls", description := some "uses openssl", enabled := true }] rfl
    { name := "tls", description := some "uses openssl", enabled := true } (by decide)

/-- C2 counterexample: the legacy .feature-class listing returns an entry named exactly
"default" (and another with an empty name) for a page carrying such elements,
refuting the claim for that implementation. -/
theorem featureFlags_legacy_default_counterexample :
    (ServiceTs.getFeatureFlags
        (fun _ => .ok (.text ⟨[⟨"default", "", false⟩, ⟨"", "", true⟩]⟩)) "serde" none).1 =
      .ok [ { name := "default", description := none, enabled := false }
          , { name := "", description := none, enabled := true } ] :=
  rfl

/-- A present value produced by the `|| undefined` normalization is never empty. -/
theorem emptyToNone_some {t s : String} (h : emptyToNone t = some s) : s ≠ "" := by
  by_cases ht : t = ""
  · simp [emptyToNone, ht] at h
  · simp [emptyToNone, ht] at h
    subst h
    exact ht

/-- A present attribute value after `|| undefined` normalization is never empty. -/
theorem attrOrUndefined_some {o : Option String} {s : String}
    (h : attrOrUndefined o = some s) : s ≠ "" := by
  cases o with
  | none => simp [attrOrUndefined] at h
  | some t => exact emptyToNone_some (by simpa [attrOrUndefined] using h)

/-- A successful feature-flag fetch returns exactly the parse of some page. -/
theorem getFeatureFlags_ok_inv (fetch : String → Except String Part007.FeatResp)
    (crateName : String) (version : Option String) (flags : List FeatureFlag)
    (hres : (Part007.getFeatureFlags fetch crateName version).1 = .ok flags) :
    ∃ p : Part007.FeaturesPage, flags = Part007.parseFeatures p.h3s := by
  cases hf : fetch (Part007.featUrl crateName version) with
  | error e => simp [Part007.getFeatureFlags, hf] at hres
  | ok r =>
    cases r with
    | json => simp [Part007.getFeatureFlags, hf] at hres
    | text p =>
      refine ⟨p, ?_⟩
      simp [Part007.getFeatureFlags, hf] at hres
      exact hres.symm

/-- C4: both type-info implementations classify the symbol kind as the first marker
class present in the fixed priority order struct > enum > trait > function > macro >
type/typedef > module; a page with no marker class yields "other", and a successful
fetch returns a record carrying exactly that first-match kind. -/
theorem typeInfo_kind_priority :
    (∀ p : TypePage, Part007.typeKind p = kindSpec7 p) ∧
    (∀ p : TypePage, ServiceTs.typeKind p = kindSpecTs p) ∧
    (∀ p : TypePage,
       p.structLen = 0 → p.enumLen = 0 → p.traitLen = 0 → p.fnLen = 0 → p.macroLen = 0 →
       p.typeLen = 0 → p.modLen = 0 → Part007.typeKind p = "other") ∧
    (∀ (fetch : String → Except String TypeResp) (c pa : String) (v : Option String) (p : TypePage),
       fetch (Part007.typeUrlPath c pa v) = .ok (.text p) →
       Except.map RustType.kind (Part007.getTypeInfo fetch c pa v).1 = .ok (kindSpec7 p)) ∧
    (∀ (fetch : String → Except String TypeResp) (c pa : String) (v : Option String) (p : TypePage),
       fetch (Part007.typeUrlPath c pa v) = .ok (.text p) →
       Except.map RustType.kind (ServiceTs.getTypeInfo fetch c pa v).1 = .ok (kindSpecTs p)) := by
  have h7 : ∀ p : TypePage, Part007.typeKind p = kindSpec7 p := fun p => rfl
  have hts : ∀ p : TypePage, ServiceTs.typeKind p = kindSpecTs p := fun p => rfl
  refine ⟨h7, hts, ?_, ?_, ?_⟩
  · intro p h1 h2 h3 h4 h5 h6 hm
    simp [Part007.typeKind, h1, h2, h3, h4, h5, h6, hm]
  · intro fetch c pa v p hf
    simp [Part007.getTypeInfo, hf, Except.map, h7]
  · intro fetch c pa v p hf
    simp [ServiceTs.getTypeInfo, hf, Except.map, hts]

/-- C4 witness: a page carrying only the enum marker is classified "enum" by the
priority order. -/
theorem typeInfo_kind_priority_witness :
    Except.map RustType.kind
        (Part007.getTypeInfo (fun _ => .ok (.text ⟨0, 2, 0, 0, 0, 0, 0, 0, "", none, none⟩))
          "tokio" "runtime/enum.E.html" none).1 =
      .ok (kindSpec7 ⟨0, 2, 0, 0, 0, 0, 0, 0, "", none, none⟩) ∧
    kindSpec7 ⟨0, 2, 0, 0, 0, 0, 0, 0, "", none, none⟩ = "enum" :=
  ⟨typeInfo_kind_priority.2.2.2.1 (fun _ => .ok (.text ⟨0, 2, 0, 0, 0, 0, 0, 0, "", none, none⟩))
      "tokio" "runtime/enum.E.html" none ⟨0, 2, 0, 0, 0, 0, 0, 0, "", none, none⟩ rfl,
    by decide⟩

/-- C10: present optional string fields of normalized results are never the empty
string — the description and source URL of both type-info implementations and the
description of the current feature listing are absent rather than empty. -/
theorem optional_fields_nonempty :
    (∀ (fetch : String → Except String TypeResp) (c pa : String) (v : Option String) (rt : RustType),
       (Part007.getTypeInfo fetch c pa v).1 = .ok rt →
       (∀ s, rt.description = some s → s ≠ "") ∧ (∀ s, rt.sourceUrl = some s → s ≠ "")) ∧
    (∀ (fetch : String → Except String TypeResp) (c pa : String) (v : Option String) (rt : RustType),
       (ServiceTs.getTypeInfo fetch c pa v).1 = .ok rt →
       (∀ s, rt.description = some s → s ≠ "") ∧ (∀ s, rt.sourceUrl = some s → s ≠ "")) ∧
    (∀ (fetch : String → Except String Part007.FeatResp) (c : String) (v : Option String)
       (flags : List FeatureFlag),
       (Part007.getFeatureFlags fetch c v).1 = .ok flags →
       ∀ f ∈ flags, ∀ s, f.description = some s → s ≠ "") := by
  refine ⟨?_, ?_, ?_⟩
  · intro fetch c pa v rt hres
    cases hf : fetch (Part007.typeUrlPath c pa v) with
    | error e => simp [Part007.getTypeInfo, hf] at hres
    | ok r =>
      cases r with
      | json => simp [Part007.getTypeInfo, hf] at hres
      | text p =>
        simp [Part007.getTypeInfo, hf] at hres
        subst hres
        exact ⟨fun s hs => emptyToNone_some hs, fun s hs => attrOrUndefined_some hs⟩
  · intro fetch c pa v rt hres
    cases hf : fetch (Part007.typeUrlPath c pa v) with
    | error e => simp [ServiceTs.getTypeInfo, hf] at hres
    | ok r =>
      cases r with
      | json => simp [ServiceTs.getTypeInfo, hf] at hres
      | text p =>
        simp [ServiceTs.getTypeInfo, hf] at hres
        subst hres
        exact ⟨fun s hs => emptyToNone_some hs, fun s hs => attrOrUndefined_some hs⟩
  · intro fetch c v flags hres
    obtain ⟨p, rfl⟩ := getFeatureFlags_ok_inv fetch c v flags hres
    refine foldl_preserves
      (fun acc : List FeatureFlag => ∀ f ∈ acc, ∀ s, f.description = some s → s ≠ "")
      _ ?_ p.h3s [] ?_
    · intro acc e hacc
      cases he : e.id with
      | none => simpa [he] using hacc
      | some name =>
        by_cases h1 : name = ""
        · simpa [he, h1] using hacc
        · by_cases h2 : name = "default"
          · simpa [he, h1, h2] using hacc
          · intro f hf
            have hf2 : f ∈ acc ∨
                f = { name := name, description := emptyToNone (jsTrim e.nextPText)
                    , enabled := strContains e.text "(default)" || e.nextDefaultLen != 0 } := by
              simpa [he, h1, h2] using hf
            rcases hf2 with h | rfl
            · exact hacc f h
            · exact fun s hs => emptyToNone_some hs
    · intro f hf
      cases hf

/-- C10 witness: on a page with a whitespace-only docblock and a present source link
the returned description is absent and the returned source URL is non-empty. -/
theorem optional_fields_nonempty_witness :
    (Part007.getTypeInfo (fun _ => .ok (.text ⟨1, 0, 0, 0, 0, 0, 0, 0, "  ", some "../src/lib.rs.html", none⟩))
        "serde" "struct.S.html" none).1 =
      .ok { name := "struct.S.html", kind := "struct", path := "struct.S.html"
          , description := none, sourceUrl := some "../src/lib.rs.html"
          , documentationUrl := "https://docs.rsserde/latest/serde/struct.S.html" } ∧
    ∀ s, (some "../src/lib.rs.html" : Option String) = some s → s ≠ "" :=
  ⟨rfl,
    (optional_fields_nonempty.1 (fun _ => .ok (.text ⟨1, 0, 0, 0, 0, 0, 0, 0, "  ", some "../src/lib.rs.html", none⟩))
        "serde" "struct.S.html" none
        { name := "struct.S.html", kind := "struct", path := "struct.S.html"
        , description := none, sourceUrl := some "../src/lib.rs.html"
        , documentationUrl := "https://docs.rsserde/latest/serde/struct.S.html" } rfl).2⟩

/-- C7 (amended): when the upstream-reported total cannot be parsed from the
pagination text, the legacy searchCrates reports totalCount equal to the number of
items actually parsed (so totalCount ≥ item count holds in that case); when a total
is reported, it is used verbatim — the intermediate JSON searchCrates copies
meta.total unchanged — and can lie below the item count. -/
theorem searchCrates_totalCount_fallback :
    (∀ (fetch : String → Except String Part005.SearchPage) (opts : SearchOptions)
       (page : Part005.SearchPage),
       fetch (Part005.searchUrl opts) = .ok page →
       matchOfNumStr page.paginationText = none →
       (Part005.searchCrates fetch opts).1 =
         .ok { crates := Part005.allCrates opts.query page
             , totalCount := (Part005.allCrates opts.query page).length }) ∧
    (∀ (fetch : String → Except String ServiceTs.CratesResp) (opts : SearchOptions)
       (d : ServiceTs.CratesData),
       fetch (ServiceTs.cratesUrl opts) = .ok (.json d) →
       (ServiceTs.searchCrates fetch opts).1 =
         .ok { crates := d.crates.map (fun c =>
                 { name := c.name, version := c.maxVersion, description := c.description })
             , totalCount := d.metaTotal }) := by
  constructor
  · intro fetch opts page hf hm
    simp [Part005.searchCrates, hf, hm]
  · intro fetch opts d hf
    simp [ServiceTs.searchCrates, hf]

/-- C7 witness: with no parsable pagination total, the reported total equals the
count of parsed items. -/
theorem searchCrates_totalCount_fallback_witness :
    (Part005.searchCrates (fun _ => .ok ⟨[⟨"serde", "1.0.0", "d"⟩], [], ""⟩)
        ⟨"serde", none, none⟩).1 =
      .ok { crates := Part005.allCrates "serde" ⟨[⟨"serde", "1.0.0", "d"⟩], [], ""⟩
          , totalCount := (Part005.allCrates "serde" ⟨[⟨"serde", "1.0.0", "d"⟩], [], ""⟩).length } ∧
    Part005.allCrates "serde" ⟨[⟨"serde", "1.0.0", "d"⟩], [], ""⟩ =
      [{ name := "serde", version := "1.0.0", description := some "d" }] :=
  ⟨searchCrates_totalCount_fallback.1 (fun _ => .ok ⟨[⟨"serde", "1.0.0", "d"⟩], [], ""⟩)
      ⟨"serde", none, none⟩ ⟨[⟨"serde", "1.0.0", "d"⟩], [], ""⟩ rfl rfl,
    by decide⟩

/-- C7 counterexample: two crates are parsed but the pagination text "1 to 2 of 1"
yields the verbatim total 1, so the returned totalCount is smaller than the number of
items — refuting "totalCount ≥ the number of CrateInfo items returned". -/
theorem searchCrates_totalCount_counterexample :
    Except.map (fun r => decide (r.crates.length ≤ r.totalCount))
        (Part005.searchCrates
          (fun _ => .ok ⟨[⟨"a", "1", ""⟩, ⟨"b", "1", ""⟩], [], "1 to 2 of 1"⟩)
          ⟨"q", none, none⟩).1 = .ok false :=
  rfl

/-- Each step of the fallback anchor scan preserves pairwise-distinct version strings
and the absence of the literal "latest". -/
theorem anchorScan_inv (crateName : String) (hrefs : List String) :
    (Part005.anchorScan crateName hrefs).Pairwise (fun a b => a.version ≠ b.version) ∧
      ∀ x ∈ Part005.anchorScan crateName hrefs, x.version ≠ "latest" := by
  refine foldl_preserves
    (fun acc : List Part005.CrateVersion =>
      acc.Pairwise (fun a b => a.version ≠ b.version) ∧ ∀ x ∈ acc, x.version ≠ "latest")
    _ ?_ hrefs [] ⟨List.Pairwise.nil, by intro x hx; cases hx⟩
  intro acc href hP
  obtain ⟨hpw, hlat⟩ := hP
  by_cases h1 : strContains href (Part005.crateVersionPat crateName) = true
  · rw [if_pos h1]
    cases hcap : capAfterPat (Part005.crateVersionPat crateName).data href.data with
    | none => exact ⟨hpw, hlat⟩
    | some v =>
      dsimp only
      by_cases h2 : (v != "latest") = true
      · rw [if_pos h2]
        by_cases h3 : acc.any (fun w => w.version == v) = true
        · rw [if_pos h3]
          exact ⟨hpw, hlat⟩
        · rw [if_neg h3]
          have hne : ∀ w ∈ acc, w.version ≠ v := by
            intro w hw heq
            exact h3 (List.any_eq_true.mpr ⟨w, hw, by simp [heq]⟩)
          constructor
          · rw [List.pairwise_append]
            refine ⟨hpw, List.pairwise_singleton _ _, ?_⟩
            intro a ha b hb
            rcases List.mem_singleton.mp hb with rfl
            exact hne a ha
          · intro x hx
            rcases List.mem_append.mp hx with h | h
            · exact hlat x h
            · rcases List.mem_singleton.mp h with rfl
              simpa using h2
      · rw [if_neg h2]
        exact ⟨hpw, hlat⟩
  · rw [if_neg h1]
    exact ⟨hpw, hlat⟩

/-- C8: when the primary version-list parse is empty, so that getCrateVersions uses
the fallback anchor scan, the returned list contains no two entries with the same
version string and no entry whose version is the literal "latest" (this also covers
the tokio mock that fills in for an empty scan). -/
theorem crateVersions_anchor_dedup
    (fetch : String → Except String Part005.VersionsPage) (crateName : String)
    (page : Part005.VersionsPage) (vs : List Part005.CrateVersion)
    (hf : fetch ("/crate/" ++ crateName) = .ok page)
    (hprimary : Part005.parseVersionLis page.versionLis = [])
    (hres : (Part005.getCrateVersions fetch crateName).1 = .ok vs) :
    vs.Pairwise (fun a b => a.version ≠ b.version) ∧ ∀ x ∈ vs, x.version ≠ "latest" := by
  have hvs :
      (if (Part005.anchorScan crateName page.anchorHrefs).isEmpty && (crateName == "tokio")
        then Part005.anchorScan crateName page.anchorHrefs ++ Part005.mockTokioVersions
        else Part005.anchorScan crateName page.anchorHrefs) = vs := by
    simpa [Part005.getCrateVersions, hf, hprimary] using hres
  subst hvs
  by_cases hm : ((Part005.anchorScan crateName page.anchorHrefs).isEmpty && (crateName == "tokio")) = true
  · rw [if_pos hm]
    have hempty : Part005.anchorScan crateName page.anchorHrefs = [] :=
      List.isEmpty_iff.mp ((Bool.and_eq_true _ _).mp hm).1
    rw [hempty, List.nil_append]
    exact ⟨by decide, by decide⟩
  · rw [if_neg hm]
    exact anchorScan_inv crateName page.anchorHrefs

/-- C8 witness: an anchor list with a duplicate and a "latest" alias yields the single
deduplicated version 1.0.0, pairwise distinct and without "latest". -/
theorem crateVersions_anchor_dedup_witness :
    ([{ version := "1.0.0", isYanked := false }] : List Part005.CrateVersion).Pairwise
        (fun a b => a.version ≠ b.version) ∧
      ∀ x ∈ ([{ version := "1.0.0", isYanked := false }] : List Part005.CrateVersion),
        x.version ≠ "latest" :=
  crateVersions_anchor_dedup
    (fun _ => .ok ⟨[], ["/crate/serde/1.0.0", "/crate/serde/latest", "/crate/serde/1.0.0/x"]⟩)
    "serde" ⟨[], ["/crate/serde/1.0.0", "/crate/serde/latest", "/crate/serde/1.0.0/x"]⟩
    [{ version := "1.0.0", isYanked := false }] rfl rfl rfl

/-- The per-link filter of searchSymbols is exactly the case-insensitive substring
match of the spec, and a kept link yields exactly the pushed symbol record. -/
theorem linkToSymbol_eq_ite (c v q k : String) (l : Part007.AllLink) :
    Part007.linkToSymbol c v q k l =
      if matchesQuery q (jsTrim l.text) = true then some (Part007.mkSymbol c v k l) else none :=
  rfl

/-- Characterization of a successful per-link filter outcome. -/
theorem linkToSymbol_eq_some (c v q k : String) (l : Part007.AllLink) (d : SymbolDefinition) :
    Part007.linkToSymbol c v q k l = some d ↔
      matchesQuery q (jsTrim l.text) = true ∧ d = Part007.mkSymbol c v k l := by
  rw [linkToSymbol_eq_ite]
  by_cases hc : matchesQuery q (jsTrim l.text) = true
  · simp [hc, eq_comm]
  · simp [hc]

/-- Membership in the parse of one section: the section must have a non-falsy id
(present and non-empty) and the entry must be the record of a link matching the
query. -/
theorem mem_parseSection (c v q : String) (s : Part007.AllSection) (d : SymbolDefinition) :
    d ∈ Part007.parseSection c v q s ↔
      ∃ sid, s.id = some sid ∧ sid ≠ "" ∧ ∃ l ∈ s.links,
        matchesQuery q (jsTrim l.text) = true ∧
          d = Part007.mkSymbol c v (Part007.kindOfSectionId sid) l := by
  cases hid : s.id with
  | none => simp [Part007.parseSection, hid]
  | some sid =>
    by_cases hsid : sid = ""
    · simp [Part007.parseSection, hid, hsid]
    · simp only [Part007.parseSection, hid, if_neg hsid, List.mem_filterMap]
      constructor
      · rintro ⟨l, hl, hls⟩
        obtain ⟨hm, rfl⟩ := (linkToSymbol_eq_some c v q (Part007.kindOfSectionId sid) l d).mp hls
        exact ⟨sid, rfl, hsid, l, hl, hm, rfl⟩
      · rintro ⟨sid2, hsid2, hne, l, hl, hm, rfl⟩
        injection hsid2 with h
        subst h
        exact ⟨l, hl,
          (linkToSymbol_eq_some c v q (Part007.kindOfSectionId sid) l _).mpr ⟨hm, rfl⟩⟩

/-- Membership in the whole-page parse of searchSymbols. -/
theorem mem_parseAllSymbols (c v q : String) (page : Part007.AllPage) (d : SymbolDefinition) :
    d ∈ Part007.parseAllSymbols c v q page ↔
      ∃ s ∈ page.sections, ∃ sid, s.id = some sid ∧ sid ≠ "" ∧ ∃ l ∈ s.links,
        matchesQuery q (jsTrim l.text) = true ∧
          d = Part007.mkSymbol c v (Part007.kindOfSectionId sid) l := by
  unfold Part007.parseAllSymbols
  rw [mem_foldl_append (Part007.parseSection c v q) page.sections [] d]
  simp [mem_parseSection]

/-- C3: on a successful fetch of the all-symbols page, searchSymbols returns exactly
the parse of that page, and an entry of a symbol section (one whose heading carries a
non-falsy id) is included exactly when its symbol name (the final namespace segment)
or its fully qualified name contains the query as a substring ignoring case; in
particular the query "run" matches the fully qualified name
"tokio::runtime::Runtime". -/
theorem searchSymbols_substring_filter
    (fetch : String → Except String Part007.AllResp) (crateName query version : String)
    (page : Part007.AllPage)
    (hc : jsTrim crateName ≠ "") (hq : jsTrim query ≠ "") (hv : jsTrim version ≠ "")
    (hf : fetch (Part007.allSymbolsUrl crateName version) = .ok (.text page)) :
    (Part007.searchSymbols fetch crateName query version).1 =
        .ok (Part007.parseAllSymbols crateName version query page) ∧
    (∀ d : SymbolDefinition,
       d ∈ Part007.parseAllSymbols crateName version query page ↔
         ∃ s ∈ page.sections, ∃ sid, s.id = some sid ∧ sid ≠ "" ∧ ∃ l ∈ s.links,
           matchesQuery query (jsTrim l.text) = true ∧
             d = Part007.mkSymbol crateName version (Part007.kindOfSectionId sid) l) ∧
    matchesQuery "run" "tokio::runtime::Runtime" = true := by
  refine ⟨?_, ?_, by decide⟩
  · simp [Part007.searchSymbols, hc, hq, hv, hf]
  · intro d
    exact mem_parseAllSymbols crateName version query page d

/-- C3 witness: on a concrete structs section, "run" keeps exactly
tokio::runtime::Runtime (and drops tokio::io::Error). -/
theorem searchSymbols_substring_filter_witness :
    (Part007.searchSymbols
        (fun _ => .ok (.text ⟨[⟨some "structs",
          [ ⟨"tokio::runtime::Runtime", some "runtime/struct.Runtime.html"⟩
          , ⟨"tokio::io::Error", some "io/struct.Error.html"⟩ ]⟩]⟩))
        "tokio" "run" "1.0.0").1 =
      .ok (Part007.parseAllSymbols "tokio" "1.0.0" "run" ⟨[⟨some "structs",
          [ ⟨"tokio::runtime::Runtime", some "runtime/struct.Runtime.html"⟩
          , ⟨"tokio::io::Error", some "io/struct.Error.html"⟩ ]⟩]⟩) ∧
    Part007.parseAllSymbols "tokio" "1.0.0" "run" ⟨[⟨some "structs",
        [ ⟨"tokio::runtime::Runtime", some "runtime/struct.Runtime.html"⟩
        , ⟨"tokio::io::Error", some "io/struct.Error.html"⟩ ]⟩]⟩ =
      [{ name := "Runtime", kind := "struct", path := "tokio::runtime::Runtime"
       , documentationUrl := some "https://docs.rs/tokio/1.0.0/tokio/runtime/struct.Runtime.html" }] :=
  ⟨(searchSymbols_substring_filter
      (fun _ => .ok (.text ⟨[⟨some "structs",
        [ ⟨"tokio::runtime::Runtime", some "runtime/struct.Runtime.html"⟩
        , ⟨"tokio::io::Error", some "io/struct.Error.html"⟩ ]⟩]⟩))
      "tokio" "run" "1.0.0" ⟨[⟨some "structs",
        [ ⟨"tokio::runtime::Runtime", some "runtime/struct.Runtime.html"⟩
        , ⟨"tokio::io::Error", some "io/struct.Error.html"⟩ ]⟩]⟩
      (by decide) (by decide) (by decide) rfl).1,
    by decide⟩

/-- The URL loop requests exactly the failing prefix of the candidate list followed by
the first success, if any: a successful response stops the loop. -/
theorem tryUrls_attempts (fetch : String → Except String Part007.SrcResp) :
    ∀ l : List String,
      (Part007.tryUrls fetch l).2 =
        l.takeWhile (fun u => !(succeedsAt fetch u)) ++
          (l.dropWhile (fun u => !(succeedsAt fetch u))).take 1 := by
  intro l
  induction l with
  | nil => rfl
  | cons u rest ih =>
    cases hu : fetch u with
    | ok r =>
      simp [Part007.tryUrls, hu, succeedsAt, List.takeWhile_cons, List.dropWhile_cons]
    | error e =>
      simp [Part007.tryUrls, hu, succeedsAt, List.takeWhile_cons, List.dropWhile_cons, ih]

/-- The URL loop comes back empty-handed exactly when every candidate fails. -/
theorem tryUrls_none_iff (fetch : String → Except String Part007.SrcResp) :
    ∀ l : List String,
      ((Part007.tryUrls fetch l).1 = none ↔ ∀ u ∈ l, succeedsAt fetch u = false) := by
  intro l
  induction l with
  | nil => simp [Part007.tryUrls]
  | cons u rest ih =>
    cases hu : fetch u with
    | ok r => simp [Part007.tryUrls, hu, succeedsAt]
    | error e => simp [Part007.tryUrls, hu, succeedsAt, ih]

/-- A string contains any string occurring contiguously in its character data. -/
theorem strContains_of_data (s u : String) (a b : List Char)
    (h : s.data = a ++ (u.data ++ b)) : strContains s u = true := by
  rw [strContains, h]
  exact charsContain_append_middle u.data a b

/-- C1 (amended): getSourceCode tries its three candidate URL patterns in the fixed
source order (crate-qualified src path, alternate crate/source path, crate-unqualified
source path); the requested URLs are the failing prefix plus the first success, so a
success stops the probing; the error naming every attempted pattern occurs exactly
when every pattern fails, and that error message contains each candidate URL.
(A successful response that is not HTML text still fails afterwards with a distinct
content-type error — see the counterexample.) -/
theorem getSourceCode_fallback_order
    (fetch : String → Except String Part007.SrcResp) (crateName path : String)
    (version : Option String)
    (hc : jsTrim crateName ≠ "") (hp : jsTrim path ≠ "") :
    Part007.possibleUrls crateName (jsOrStr version "latest") path =
      [ "/" ++ crateName ++ "/" ++ jsOrStr version "latest" ++ "/src/" ++ crateName ++ "/" ++ path
      , "/crate/" ++ crateName ++ "/" ++ jsOrStr version "latest" ++ "/source/" ++ path
      , "/" ++ crateName ++ "/" ++ jsOrStr version "latest" ++ "/source/" ++ path ] ∧
    (Part007.getSourceCode fetch crateName path version).2 =
      (Part007.possibleUrls crateName (jsOrStr version "latest") path).takeWhile
          (fun u => !(succeedsAt fetch u)) ++
        ((Part007.possibleUrls crateName (jsOrStr version "latest") path).dropWhile
          (fun u => !(succeedsAt fetch u))).take 1 ∧
    ((∀ u ∈ Part007.possibleUrls crateName (jsOrStr version "latest") path,
        succeedsAt fetch u = false) ↔
      (Part007.getSourceCode fetch crateName path version).1 =
        .error ("Failed to get source code: Could not find source code at any of the attempted URLs: "
          ++ joinComma (Part007.possibleUrls crateName (jsOrStr version "latest") path))) ∧
    (∀ u ∈ Part007.possibleUrls crateName (jsOrStr version "latest") path,
      strContains
        ("Failed to get source code: Could not find source code at any of the attempted URLs: "
          ++ joinComma (Part007.possibleUrls crateName (jsOrStr version "latest") path)) u = true) := by
  refine ⟨rfl, ?_, ⟨?_, ?_⟩, ?_⟩
  · have h2 : (Part007.getSourceCode fetch crateName path version).2 =
        (Part007.tryUrls fetch (Part007.possibleUrls crateName (jsOrStr version "latest") path)).2 := by
      simp only [Part007.getSourceCode, if_neg hc, if_neg hp]
      cases (Part007.tryUrls fetch (Part007.possibleUrls crateName (jsOrStr version "latest") path)).1 with
      | none => rfl
      | some r => cases r <;> rfl
    rw [h2, tryUrls_attempts]
  · intro hall
    have hnone := (tryUrls_none_iff fetch
      (Part007.possibleUrls crateName (jsOrStr version "latest") path)).mpr hall
    simp [Part007.getSourceCode, if_neg hc, if_neg hp, hnone]
  · intro heq
    by_contra hnotall
    have hsome : (Part007.tryUrls fetch
        (Part007.possibleUrls crateName (jsOrStr version "latest") path)).1 ≠ none := by
      intro h
      exact hnotall ((tryUrls_none_iff fetch _).mp h)
    obtain ⟨r, hr⟩ := Option.ne_none_iff_exists'.mp hsome
    cases r with
    | json =>
      have hjson : (Part007.getSourceCode fetch crateName path version).1 =
          .error "Failed to get source code: Expected HTML response but got JSON" := by
        simp [Part007.getSourceCode, if_neg hc, if_neg hp, hr]
      rw [hjson] at heq
      have hmsg := Except.error.inj heq
      have hdata := congrArg String.data hmsg
      rw [strData_append] at hdata
      have htake := congrArg (List.take 84) hdata
      rw [List.take_left'
        (by decide :
          ("Failed to get source code: Could not find source code at any of the attempted URLs: " : String).data.length
            = 84)] at htake
      exact absurd htake (by decide)
    | text p =>
      have hok : (Part007.getSourceCode fetch crateName path version).1 =
          .ok (Part007.extractSource p) := by
        simp [Part007.getSourceCode, if_neg hc, if_neg hp, hr]
      rw [hok] at heq
      exact Except.noConfusion heq
  · intro u hu
    simp only [Part007.possibleUrls, List.mem_cons, List.not_mem_nil, or_false] at hu
    rcases hu with rfl | rfl | rfl
    · apply strContains_of_data _ _
        ("Failed to get source code: Could not find source code at any of the attempted URLs: " : String).data
        ((", " ++ ("/crate/" ++ crateName ++ "/" ++ jsOrStr version "latest" ++ "/source/" ++ path) ++ ", "
          ++ ("/" ++ crateName ++ "/" ++ jsOrStr version "latest" ++ "/source/" ++ path)) : String).data
      simp [Part007.possibleUrls, joinComma, strData_append, List.append_assoc]
    · apply strContains_of_data _ _
        (("Failed to get source code: Could not find source code at any of the attempted URLs: "
          ++ ("/" ++ crateName ++ "/" ++ jsOrStr version "latest" ++ "/src/" ++ crateName ++ "/" ++ path)
          ++ ", ") : String).data
        ((", " ++ ("/" ++ crateName ++ "/" ++ jsOrStr version "latest" ++ "/source/" ++ path)) : String).data
      simp [Part007.possibleUrls, joinComma, strData_append, List.append_assoc]
    · apply strContains_of_data _ _
        (("Failed to get source code: Could not find source code at any of the attempted URLs: "
          ++ ("/" ++ crateName ++ "/" ++ jsOrStr version "latest" ++ "/src/" ++ crateName ++ "/" ++ path)
          ++ ", "
          ++ ("/crate/" ++ crateName ++ "/" ++ jsOrStr version "latest" ++ "/source/" ++ path)
          ++ ", ") : String).data
        ([] : List Char)
      simp [Part007.possibleUrls, joinComma, strData_append, List.append_assoc]

/-- C1 witness: when every candidate URL fails (404 on all three), the operation fails
with the error naming each of the three attempted patterns. -/
theorem getSourceCode_fallback_order_witness :
    (Part007.getSourceCode (fun _ => .error "HTTP error! status: 404") "serde" "lib.rs" none).1 =
      .error ("Failed to get source code: Could not find source code at any of the attempted URLs: "
        ++ joinComma (Part007.possibleUrls "serde" (jsOrStr none "latest") "lib.rs")) ∧
    joinComma (Part007.possibleUrls "serde" (jsOrStr none "latest") "lib.rs") =
      "/serde/latest/src/serde/lib.rs, /crate/serde/latest/source/lib.rs, /serde/latest/source/lib.rs" :=
  ⟨(getSourceCode_fallback_order (fun _ => .error "HTTP error! status: 404") "serde" "lib.rs" none
      (by decide) (by decide)).2.2.1.mp (by intro u hu; rfl),
    by decide⟩

/-- C1 counterexample: with an oracle answering the first pattern with a JSON body,
exactly one pattern is attempted and it succeeds, yet the operation still fails (with
the content-type error) — refuting "the operation fails only if every candidate URL
pattern fails" as stated. -/
theorem getSourceCode_nonpattern_failure_counterexample :
    (Part007.getSourceCode (fun _ => .ok .json) "serde" "lib.rs" none).1 =
      .error "Failed to get source code: Expected HTML response but got JSON" ∧
    (Part007.getSourceCode (fun _ => .ok .json) "serde" "lib.rs" none).2 =
      ["/serde/latest/src/serde/lib.rs"] ∧
    succeedsAt (fun _ => .ok .json) "/serde/latest/src/serde/lib.rs" = true :=
  ⟨rfl, rfl, rfl⟩
